import Mathlib

/-!
Verification of the agent-runner bootstrap script
(`.github/scripts/python/agent_runner.py`).

The script is a configuration shim: it selects a task prompt from the
environment or the command line, configures OpenTelemetry, parses a tool
configuration string and an MCP server descriptor, derives a session
identifier, and chooses a process-termination path.  Each of those pieces
is pure decision logic over environment-variable values, so it is embedded
here as Lean functions over explicit inputs: an environment variable is an
`Option String` (`none` = unset), and Python truthiness of a string value
is made explicit.  External effects (the agent SDK, network clients,
actually exiting the process) are represented by the descriptive values the
script computes for them (which prompt is run, which transport is chosen,
which exit path and code are taken).
-/

namespace AgentRunner

/-- Python string truthiness for `os.getenv` results: `None` and the empty
string are falsy, every other string is truthy. -/
def pyTruthy : Option String → Bool
  | none => false
  | some s => decide (s ≠ "")

/-- Whitespace characters stripped by Python `str.strip()` (the ASCII set:
space, tab, newline, carriage return, vertical tab, form feed). -/
def isPySpace (c : Char) : Bool :=
  c = ' ' || c = '\t' || c = '\n' || c = '\r' || c = '\x0b' || c = '\x0c'

/-- Python `s.strip()`: remove leading and trailing whitespace. -/
def pyStrip (s : String) : String :=
  String.mk (((s.data.dropWhile isPySpace).reverse.dropWhile isPySpace).reverse)

/-- Split a character list at every occurrence of the separator character;
`Python`-style, so `"a;;b"` splits into `["a", "", "b"]` and the empty
string splits into `[""]`. -/
def splitChar (sep : Char) : List Char → List (List Char)
  | [] => [[]]
  | c :: cs =>
    if c = sep then [] :: splitChar sep cs
    else
      match splitChar sep cs with
      | [] => [[c]]
      | g :: gs => (c :: g) :: gs

/-- Python `s.split(sep)` for a single-character separator. -/
def pySplit (sep : Char) (s : String) : List String :=
  (splitChar sep s.data).map (fun cs => String.mk cs)

/-- Split at the first occurrence of the separator character, or `none` when
the separator does not occur. -/
def splitFirstChar (sep : Char) : List Char → Option (List Char × List Char)
  | [] => none
  | c :: cs =>
    if c = sep then some ([], cs)
    else
      match splitFirstChar sep cs with
      | none => none
      | some (a, b) => some (c :: a, b)

/-- Python `s.split(sep, 1)` for a single-character separator, presented as
`none` when the separator is absent (the one-element result) and
`some (before, after)` when present (the two-element result). -/
def pySplit1 (sep : Char) (s : String) : Option (String × String) :=
  (splitFirstChar sep s.data).map (fun ab => (String.mk ab.1, String.mk ab.2))

/-- Substring test on character lists. -/
def listContains (needle : List Char) : List Char → Bool
  | [] => needle.isEmpty
  | c :: cs => needle.isPrefixOf (c :: cs) || listContains needle cs

/-- Python `needle in s` substring membership. -/
def pyContains (needle s : String) : Bool :=
  listContains needle.data s.data

/-- Drop everything up to and including the first occurrence of a non-empty
substring; `none` when the substring does not occur. -/
def dropAfterSub (needle : List Char) : List Char → Option (List Char)
  | [] => none
  | c :: cs =>
    if needle.isPrefixOf (c :: cs) then some (List.drop (needle.length - 1) cs)
    else dropAfterSub needle cs

/-- Join character lists with a separator list between consecutive items. -/
def joinWith (sep : List Char) : List (List Char) → List Char
  | [] => []
  | [x] => x
  | x :: y :: xs => x ++ sep ++ joinWith sep (y :: xs)

/-- Python `sep.join(xs)`. -/
def pyJoin (sep : String) (xs : List String) : String :=
  String.mk (joinWith sep.data (xs.map String.data))

/-! ## Prompt selection in `main`

`main` parses the trailing command-line arguments (zero or more words),
reads `STRANDS_PROMPT`, and either calls `run_agent(prompt)` once or calls
`parser.error(...)`, which makes `argparse` exit the process with status 2.
-/

/-- Outcome of `main`'s prompt selection: either `run_agent` is entered with
a definite prompt string, or the process exits with a status code before any
agent construction. -/
inductive MainOutcome
  | runAgent (prompt : String)
  | exitWith (code : Nat)
deriving DecidableEq

/-- Exit status used by `argparse`'s `parser.error`. -/
def argparseUsageErrorCode : Nat := 2

/-- The final guard of `main`: `if not prompt.strip(): parser.error(...)`,
else `run_agent(prompt)`. -/
def check_and_run (prompt : String) : MainOutcome :=
  if pyStrip prompt = "" then .exitWith argparseUsageErrorCode
  else .runAgent prompt

/-- Prompt selection logic of `main`: the `STRANDS_PROMPT` environment
variable when truthy, else the space-joined command-line arguments when any
were given, else a usage error; a selected prompt that is all whitespace is
also a usage error. -/
def main_dispatch (strands_prompt : Option String) (cli_args : List String) :
    MainOutcome :=
  if pyTruthy strands_prompt then check_and_run (strands_prompt.getD "")
  else if cli_args.isEmpty then .exitWith argparseUsageErrorCode
  else check_and_run (pyJoin " " cli_args)

theorem pyTruthy_some_iff (s : String) : pyTruthy (some s) = true ↔ s ≠ "" := by
  simp [pyTruthy]

theorem main_dispatch_of_truthy (p : String) (cli_args : List String)
    (h : p ≠ "") : main_dispatch (some p) cli_args = check_and_run p := by
  have ht : pyTruthy (some p) = true := (pyTruthy_some_iff p).mpr h
  simp [main_dispatch, ht, Option.getD]

/-- C1: when `STRANDS_PROMPT` is set to a non-empty value, the outcome of
`main` is the same whatever command-line arguments were supplied, and
whenever `run_agent` is entered the prompt it receives is the environment
variable's value verbatim. -/
theorem c1_env_prompt_precedence (p : String) (cli_args : List String)
    (h : p ≠ "") :
    main_dispatch (some p) cli_args = main_dispatch (some p) [] ∧
      ∀ q, main_dispatch (some p) cli_args = .runAgent q → q = p := by
  rw [main_dispatch_of_truthy p cli_args h, main_dispatch_of_truthy p [] h]
  refine ⟨rfl, ?_⟩
  intro q hq
  unfold check_and_run at hq
  by_cases hs : pyStrip p = ""
  · simp [hs] at hq
  · simp [hs] at hq
    exact hq.symm

/-- C1 witness: with `STRANDS_PROMPT="analyze"` and CLI arguments
`["other", "words"]`, the run uses `"analyze"` and ignores the arguments. -/
theorem c1_env_prompt_precedence_witness :
    main_dispatch (some "analyze") ["other", "words"] =
        main_dispatch (some "analyze") [] ∧
      main_dispatch (some "analyze") ["other", "words"] = .runAgent "analyze" := by
  have h := c1_env_prompt_precedence "analyze" ["other", "words"] (by decide)
  exact ⟨h.1, by decide⟩

/-- C2: when `STRANDS_PROMPT` is unset (or set to the empty string) and no
command-line prompt argument is supplied, `main` exits with the `argparse`
usage-error status 2, which is non-zero, and `run_agent` is never entered. -/
theorem c2_no_prompt_usage_error (sp : Option String)
    (h : sp = none ∨ sp = some "") :
    main_dispatch sp [] = .exitWith argparseUsageErrorCode ∧
      argparseUsageErrorCode ≠ 0 ∧
      ∀ q, main_dispatch sp [] ≠ .runAgent q := by
  have hfalse : pyTruthy sp = false := by
    rcases h with h | h <;> subst h <;> rfl
  refine ⟨?_, by decide, ?_⟩
  · simp [main_dispatch, hfalse, List.isEmpty]
  · intro q
    simp [main_dispatch, hfalse, List.isEmpty]

/-- C2 witness: with `STRANDS_PROMPT` unset and no CLI arguments, `main`
exits with status 2. -/
theorem c2_no_prompt_usage_error_witness :
    main_dispatch none [] = .exitWith argparseUsageErrorCode ∧
      argparseUsageErrorCode ≠ 0 :=
  ⟨(c2_no_prompt_usage_error none (Or.inl rfl)).1,
    (c2_no_prompt_usage_error none (Or.inl rfl)).2.1⟩

/-- C10: when `STRANDS_PROMPT` is set to a non-empty all-whitespace string,
`main` exits with the usage-error status 2 whatever command-line arguments
were supplied: the whitespace value shadows the CLI arguments instead of
falling back to them. -/
theorem c10_whitespace_prompt_shadows_cli (p : String) (cli_args : List String)
    (h1 : p ≠ "") (h2 : pyStrip p = "") :
    main_dispatch (some p) cli_args = .exitWith argparseUsageErrorCode := by
  rw [main_dispatch_of_truthy p cli_args h1]
  simp [check_and_run, h2]

/-- C10 witness: `STRANDS_PROMPT="   "` with CLI arguments
`["analyze", "repo"]` exits with status 2. -/
theorem c10_whitespace_prompt_shadows_cli_witness :
    pyStrip "   " = "" ∧
      main_dispatch (some "   ") ["analyze", "repo"] =
        .exitWith argparseUsageErrorCode :=
  ⟨by decide,
    c10_whitespace_prompt_shadows_cli "   " ["analyze", "repo"]
      (by decide) (by decide)⟩

/-! ## Session identifier (`run_agent`)

`session_id = os.getenv("SESSION_ID") or
  f"gh-{os.getenv('GITHUB_REPOSITORY', 'unknown').replace('/', '-')}-{os.getenv('GITHUB_RUN_ID', 'local')}"`.
-/

/-- Python `s.replace('/', '-')`: the pattern is a single character, so this
is a character map replacing every slash by a dash. -/
def replaceSlashDash (s : String) : String :=
  String.mk (s.data.map (fun c => if c = '/' then '-' else c))

/-- The default session identifier built from `GITHUB_REPOSITORY` and
`GITHUB_RUN_ID`, with literal placeholders when they are unset. -/
def default_session_id (github_repository github_run_id : Option String) :
    String :=
  "gh-" ++ replaceSlashDash (github_repository.getD "unknown") ++ "-" ++
    github_run_id.getD "local"

/-- The session identifier: the `SESSION_ID` environment variable when
truthy (Python `or`), else the derived default. -/
def session_id (session_id_var github_repository github_run_id : Option String) :
    String :=
  if pyTruthy session_id_var then session_id_var.getD ""
  else default_session_id github_repository github_run_id

/-- C3: with `SESSION_ID` unset the session identifier is `gh-`, then the
repository with every slash replaced by a dash, then a dash and the run id;
the placeholders `unknown` and `local` are substituted when repository or
run id are absent, and repository `org/repo` with run id `42` yields exactly
`gh-org-repo-42`. -/
theorem c3_session_id_default :
    (∀ repo run_id : String,
        session_id none (some repo) (some run_id) =
          "gh-" ++ replaceSlashDash repo ++ "-" ++ run_id) ∧
      session_id none none none = "gh-unknown-local" ∧
      session_id none (some "org/repo") (some "42") = "gh-org-repo-42" :=
  ⟨fun _ _ => rfl, by decide, by decide⟩

/-! ## Tool configuration loader (`load_tools`)

`load_tools(config)` splits the configuration string on `;` into groups,
strips each group and skips empty ones, splits each group on the first `:`
(skipping the group when there is no colon), then resolves each
comma-separated stripped name as an attribute of the imported package,
appending each successfully resolved callable and skipping failures.  The
dynamic `__import__`/`getattr` resolution is abstracted as an oracle
`resolve : String → String → Option α` (`none` = `ImportError` or
`AttributeError`). -/

/-- The stripped, non-empty tool names of a group's right-hand side:
`[t.strip() for t in tools_str.split(",") if t.strip()]` applied to
`parts[1].strip()`. -/
def tool_names_of (tools_str : String) : List String :=
  ((pySplit ',' (pyStrip tools_str)).map pyStrip).filter (fun t => t ≠ "")

/-- Process a single `;`-separated group exactly as the source loop body
does: strip it, skip it when empty or colon-free, else resolve each parsed
name, keeping successes in order. -/
def resolve_group {α : Type} (resolve : String → String → Option α)
    (group : String) : List α :=
  let g := pyStrip group
  if g = "" then []
  else
    match pySplit1 ':' g with
    | none => []
    | some (p, ts) => (tool_names_of ts).filterMap (resolve (pyStrip p))

/-- `load_tools`: concatenation, in group order, of each group's resolved
tools. -/
def load_tools {α : Type} (resolve : String → String → Option α)
    (config : String) : List α :=
  ((pySplit ';' config).map (resolve_group resolve)).flatten

/-- The (package, name) pairs a well-formed group asks the loader to
resolve, following the spec grammar `group = package ":" names`,
`names = name ("," name)*`: groups lacking a colon contribute nothing. -/
def group_entries (group : String) : List (String × String) :=
  match pySplit1 ':' (pyStrip group) with
  | none => []
  | some (p, ts) => (tool_names_of ts).map (fun n => (pyStrip p, n))

/-- All (package, name) resolution requests of a configuration string, in
order, taken from its well-formed groups. -/
def tool_entries (config : String) : List (String × String) :=
  ((pySplit ';' config).map group_entries).flatten

theorem pySplit1_empty (sep : Char) : pySplit1 sep "" = none := rfl

theorem resolve_group_eq_entries {α : Type}
    (resolve : String → String → Option α) (group : String) :
    resolve_group resolve group =
      (group_entries group).filterMap (fun e => resolve e.1 e.2) := by
  unfold resolve_group group_entries
  by_cases hg : pyStrip group = ""
  · simp [hg, pySplit1_empty]
  · simp only [hg, if_false]
    cases hsplit : pySplit1 ':' (pyStrip group) with
    | none => simp
    | some pts =>
      obtain ⟨p, ts⟩ := pts
      simp only [List.filterMap_map]
      rfl

/-- C4: for every resolution oracle and every configuration string, the
loader returns exactly the ordered successfully-resolved tools of the
well-formed entries: groups lacking a colon and names whose resolution
fails are skipped, and no malformed entry makes the loader fail (it is a
total function) or drops a well-formed entry. -/
theorem c4_load_tools_skips_malformed {α : Type}
    (resolve : String → String → Option α) (config : String) :
    load_tools resolve config =
      (tool_entries config).filterMap (fun e => resolve e.1 e.2) := by
  unfold load_tools tool_entries
  induction pySplit ';' config with
  | nil => rfl
  | cons g gs ih =>
    simp only [List.map_cons, List.flatten_cons, List.filterMap_append]
    rw [ih, resolve_group_eq_entries]

/-! ## Default tool configuration (`run_agent`)

`tools_config = os.getenv("STRANDS_TOOLS", default_tools)`. -/

/-- The fixed default tool configuration string of `run_agent`. -/
def default_tools : String :=
  "strands_tools:shell,retrieve,use_agent;strands_action:use_github,system_prompt,store_in_kb,create_subagent"

/-- The configuration string handed to `load_tools`: the `STRANDS_TOOLS`
environment variable when set (even if empty), else the default. -/
def tools_config (strands_tools_var : Option String) : String :=
  strands_tools_var.getD default_tools

/-- C9: with `STRANDS_TOOLS` unset the loader receives the fixed default
configuration string, whose well-formed entries are exactly the seven named
tools drawn from the two packages `strands_tools` and `strands_action` (as
exhibited by running the loader with an oracle that records every
resolution request). -/
theorem c9_default_tools_config :
    tools_config none = default_tools ∧
      load_tools (fun p n => some (p, n)) default_tools =
        [("strands_tools", "shell"), ("strands_tools", "retrieve"),
          ("strands_tools", "use_agent"), ("strands_action", "use_github"),
          ("strands_action", "system_prompt"), ("strands_action", "store_in_kb"),
          ("strands_action", "create_subagent")] :=
  ⟨rfl, by decide⟩

/-! ## MCP server loader (`load_mcp_servers`)

Each descriptor in the `MCP_SERVERS` JSON is checked in order: a truthy
`disabled` field skips the server; a `command` key selects the stdio
transport `stdio_client(StdioServerParameters(...))`; otherwise a `url` key
selects `sse_client(url) if "/sse" in url else streamablehttp_client(...)`;
a descriptor with neither key is skipped.  Presence of a JSON key is
modelled by `Option`. -/

/-- The transport a constructed MCP client is bound to. -/
inductive McpTransport
  | stdio (command : String) (args : List String)
  | sse (url : String)
  | streamableHttp (url : String)
deriving DecidableEq

/-- One MCP server descriptor, restricted to the fields the construction
logic reads (the `headers`, `env` and `prefix` values are passed through to
the transport unchanged and do not affect which transport is chosen). -/
structure McpServerConfig where
  disabled : Bool
  command : Option String
  args : List String
  url : Option String
deriving DecidableEq

/-- Transport selection for one descriptor: `none` means no client is
constructed for this server. -/
def select_transport (cfg : McpServerConfig) : Option McpTransport :=
  if cfg.disabled then none
  else
    match cfg.command with
    | some cmd => some (.stdio cmd cfg.args)
    | none =>
      match cfg.url with
      | some u =>
        some (if pyContains "/sse" u then .sse u else .streamableHttp u)
      | none => none

/-- `load_mcp_servers`: the clients of the non-skipped descriptors, in
order. -/
def load_mcp_servers (servers : List (String × McpServerConfig)) :
    List McpTransport :=
  servers.filterMap (fun nc => select_transport nc.2)

/-- Modelled from the spec: C5 speaks of a url "whose path contains
`/sse`", so the path component of a url is extracted here following the
usual url shape the spec alludes to — everything from the first `/` after
the `://` scheme separator (the whole string when there is no scheme
separator, the empty string when the authority is not followed by `/`). -/
def spec_url_path (url : String) : String :=
  match dropAfterSub "://".data url.data with
  | none => url
  | some rest =>
    match splitFirstChar '/' rest with
    | none => ""
    | some ab => String.mk ('/' :: ab.2)

/-- C5 counterexample: the url `https://sse.example.com/data` has path
`/data`, which does not contain `/sse`, so the claim requires the
streaming-HTTP transport; but the code tests `"/sse" in url` on the whole
url string, which matches inside the authority `//sse.example.com`, and an
enabled command-less descriptor with this url is bound to the SSE
transport. -/
theorem c5_transports_counterexample :
    pyContains "/sse" (spec_url_path "https://sse.example.com/data") = false ∧
      pyContains "/sse" "https://sse.example.com/data" = true ∧
      select_transport
          ⟨false, none, [], some "https://sse.example.com/data"⟩ =
        some (.sse "https://sse.example.com/data") := by
  decide

/-- C5 amended: a descriptor with `disabled: true` yields no client; an
enabled descriptor with a `command` yields the stdio transport (`command`
takes precedence over `url`); an enabled command-less descriptor with a url
containing `/sse` anywhere in the url string (not only in its path) yields
the SSE transport, and with any other url the streaming-HTTP transport. -/
theorem c5_transports_amended (cfg : McpServerConfig) :
    (cfg.disabled = true → select_transport cfg = none) ∧
      (cfg.disabled = false → ∀ cmd, cfg.command = some cmd →
        select_transport cfg = some (.stdio cmd cfg.args)) ∧
      (cfg.disabled = false → cfg.command = none → ∀ u, cfg.url = some u →
        pyContains "/sse" u = true → select_transport cfg = some (.sse u)) ∧
      (cfg.disabled = false → cfg.command = none → ∀ u, cfg.url = some u →
        pyContains "/sse" u = false →
        select_transport cfg = some (.streamableHttp u)) := by
  refine ⟨?_, ?_, ?_, ?_⟩
  · intro hd
    simp [select_transport, hd]
  · intro hd cmd hc
    simp [select_transport, hd, hc]
  · intro hd hc u hu hsse
    simp [select_transport, hd, hc, hu, hsse]
  · intro hd hc u hu hsse
    simp [select_transport, hd, hc, hu, hsse]

/-- C5 amended witness: a disabled descriptor, a command descriptor, an
`/sse` url descriptor and a plain url descriptor, each at concrete
values. -/
theorem c5_transports_amended_witness :
    select_transport ⟨true, some "npx", ["server"], none⟩ = none ∧
      select_transport ⟨false, some "npx", ["server"], some "https://h/sse"⟩ =
        some (.stdio "npx" ["server"]) ∧
      select_transport ⟨false, none, [], some "https://h/sse"⟩ =
        some (.sse "https://h/sse") ∧
      select_transport ⟨false, none, [], some "https://h/mcp"⟩ =
        some (.streamableHttp "https://h/mcp") :=
  ⟨(c5_transports_amended _).1 rfl,
    (c5_transports_amended _).2.1 rfl "npx" rfl,
    (c5_transports_amended _).2.2.1 rfl rfl "https://h/sse" rfl (by decide),
    (c5_transports_amended _).2.2.2 rfl rfl "https://h/mcp" rfl (by decide)⟩

/-! ## Process termination path (`run_agent`)

Both the success branch and the `except` branch of `run_agent` end with
`os._exit(code) if has_mcp_servers and not os.getenv("PYTEST_CURRENT_TEST")
else sys.exit(code)` with code 0 on success and 1 on failure.  (The
failure branch's extra `"has_mcp_servers" in locals()` guard is always
true: the variable is assigned before the `try` block.) -/

/-- The two ways the script terminates: `os._exit` (abrupt, bypassing
interpreter cleanup) or `sys.exit` (graceful). -/
inductive ExitKind
  | abrupt
  | graceful
deriving DecidableEq

/-- Termination decision of `run_agent`: exit kind and status code, from
whether any MCP client was constructed, the value of `PYTEST_CURRENT_TEST`,
and whether the run succeeded. -/
def run_agent_exit (has_mcp_servers : Bool)
    (pytest_current_test : Option String) (success : Bool) : ExitKind × Nat :=
  if success then
    if has_mcp_servers && !pyTruthy pytest_current_test then (.abrupt, 0)
    else (.graceful, 0)
  else
    if has_mcp_servers && !pyTruthy pytest_current_test then (.abrupt, 1)
    else (.graceful, 1)

/-- C6 counterexample: with an MCP client constructed and
`PYTEST_CURRENT_TEST` present but set to the empty string, the marker is
present yet termination is abrupt (for success and failure alike), because
the code tests the variable's truthiness, not its presence. -/
theorem c6_exit_path_counterexample :
    (some "" : Option String).isSome = true ∧
      run_agent_exit true (some "") true = (.abrupt, 0) ∧
      run_agent_exit true (some "") false = (.abrupt, 1) := by
  decide

/-- C6 amended: when at least one MCP client was constructed and
`PYTEST_CURRENT_TEST` is absent or empty (falsy), termination is abrupt;
when the marker is set to a non-empty value, or when no MCP client was
constructed, termination is graceful — in both cases regardless of whether
the run succeeded or failed, success only selecting status 0 over 1. -/
theorem c6_exit_path_amended (has_mcp : Bool) (pytest : Option String)
    (success : Bool) :
    (has_mcp = true → pyTruthy pytest = false →
        (run_agent_exit has_mcp pytest success).1 = .abrupt) ∧
      (pyTruthy pytest = true ∨ has_mcp = false →
        (run_agent_exit has_mcp pytest success).1 = .graceful) ∧
      (run_agent_exit has_mcp pytest success).1 =
        (run_agent_exit has_mcp pytest true).1 ∧
      (run_agent_exit has_mcp pytest success).2 = if success then 0 else 1 := by
  refine ⟨?_, ?_, ?_, ?_⟩
  · intro hm hp
    cases success <;> simp [run_agent_exit, hm, hp]
  · intro h
    rcases h with hp | hm
    · cases success <;> simp [run_agent_exit, hp]
    · cases success <;> simp [run_agent_exit, hm]
  · cases success <;> cases has_mcp <;> cases hb : pyTruthy pytest <;>
      simp [run_agent_exit, hb]
  · cases success <;> cases has_mcp <;> cases hb : pyTruthy pytest <;>
      simp [run_agent_exit, hb]

/-- C6 amended witness: concrete instances of the abrupt and graceful
clauses. -/
theorem c6_exit_path_amended_witness :
    (run_agent_exit true none false).1 = .abrupt ∧
      (run_agent_exit true (some "test_session") true).1 = .graceful ∧
      (run_agent_exit false none true).1 = .graceful :=
  ⟨(c6_exit_path_amended true none false).1 rfl rfl,
    (c6_exit_path_amended true (some "test_session") true).2.1
      (Or.inl (by decide)),
    (c6_exit_path_amended false none true).2.1 (Or.inr rfl)⟩

/-! ## Telemetry configurator (`setup_otel`)

`setup_otel` reads `LANGFUSE_BASE_URL`; when truthy and both keys are
non-empty it writes `OTEL_EXPORTER_OTLP_ENDPOINT` and
`OTEL_EXPORTER_OTLP_HEADERS` (HTTP Basic auth, base64 of
`public_key:secret_key`).  Then, when `OTEL_EXPORTER_OTLP_ENDPOINT` is
truthy, it activates the OTLP exporter inside a try/except.  The
`base64.b64encode(s.encode()).decode()` call is embedded by a UTF-8
encoder and a standard base64 encoder over byte values. -/

/-- The standard base64 alphabet. -/
def b64_alphabet : List Char :=
  "ABCDEFGHIJKLMNOPQRSTUVWXYZabcdefghijklmnopqrstuvwxyz0123456789+/".data

/-- The base64 digit for a 6-bit value. -/
def b64_char (n : Nat) : Char := b64_alphabet.getD n 'A'

/-- Standard base64 of a byte sequence, with `=` padding. -/
def b64_encode_bytes : List Nat → List Char
  | [] => []
  | [a] => [b64_char (a / 4), b64_char (a % 4 * 16), '=', '=']
  | [a, b] =>
    [b64_char (a / 4), b64_char (a % 4 * 16 + b / 16), b64_char (b % 16 * 4), '=']
  | a :: b :: c :: rest =>
    b64_char (a / 4) :: b64_char (a % 4 * 16 + b / 16) ::
      b64_char (b % 16 * 4 + c / 64) :: b64_char (c % 64) :: b64_encode_bytes rest

/-- UTF-8 bytes of one Unicode scalar value. -/
def utf8_encode_char (c : Char) : List Nat :=
  let n := c.toNat
  if n < 128 then [n]
  else if n < 2048 then [192 + n / 64, 128 + n % 64]
  else if n < 65536 then [224 + n / 4096, 128 + n / 64 % 64, 128 + n % 64]
  else [240 + n / 262144, 128 + n / 4096 % 64, 128 + n / 64 % 64, 128 + n % 64]

/-- Python `s.encode()`: the UTF-8 bytes of a string. -/
def utf8_encode (s : String) : List Nat :=
  (s.data.map utf8_encode_char).flatten

/-- Python `base64.b64encode(s.encode()).decode()`. -/
def b64encode (s : String) : String :=
  String.mk (b64_encode_bytes (utf8_encode s))

/-- The telemetry-related environment variables read and written by
`setup_otel` (`none` = unset). -/
structure OtelEnv where
  langfuse_base_url : Option String
  langfuse_public_key : Option String
  langfuse_secret_key : Option String
  otel_exporter_otlp_endpoint : Option String
  otel_exporter_otlp_headers : Option String
deriving DecidableEq

/-- `setup_otel`: returns the updated environment together with whether the
OTLP exporter was activated (the `StrandsTelemetry().setup_otlp_exporter()`
call, whose own failure is caught and logged). -/
def setup_otel (e : OtelEnv) : OtelEnv × Bool :=
  let e1 :=
    if pyTruthy e.langfuse_base_url then
      let host := e.langfuse_base_url.getD ""
      let public_key := e.langfuse_public_key.getD ""
      let secret_key := e.langfuse_secret_key.getD ""
      if public_key ≠ "" ∧ secret_key ≠ "" then
        { e with
          otel_exporter_otlp_endpoint := some (host ++ "/api/public/otel"),
          otel_exporter_otlp_headers :=
            some ("Authorization=Basic " ++
              b64encode (public_key ++ ":" ++ secret_key)) }
      else e
    else e
  (e1, pyTruthy e1.otel_exporter_otlp_endpoint)

/-- C7: when all five telemetry environment variables are unset,
`setup_otel` returns the environment unchanged and activates no exporter
(and, being a total function, raises nothing). -/
theorem c7_setup_otel_no_config (e : OtelEnv)
    (h1 : e.langfuse_base_url = none) (h2 : e.langfuse_public_key = none)
    (h3 : e.langfuse_secret_key = none)
    (h4 : e.otel_exporter_otlp_endpoint = none)
    (h5 : e.otel_exporter_otlp_headers = none) :
    setup_otel e = (e, false) := by
  obtain ⟨f1, f2, f3, f4, f5⟩ := e
  simp only at h1 h2 h3 h4 h5
  subst h1 h2 h3 h4 h5
  rfl

/-- C7 witness: the fully-unset environment is returned unchanged with no
exporter activated. -/
theorem c7_setup_otel_no_config_witness :
    setup_otel ⟨none, none, none, none, none⟩ =
      (⟨none, none, none, none, none⟩, false) :=
  c7_setup_otel_no_config ⟨none, none, none, none, none⟩ rfl rfl rfl rfl rfl

/-- C8: when `LANGFUSE_BASE_URL` is set non-empty and both keys are set
non-empty, `setup_otel` sets the OTLP endpoint to the host followed by
`/api/public/otel` and the OTLP headers to an HTTP Basic Authorization
header whose token is the base64 encoding of `public_key:secret_key`. -/
theorem c8_setup_otel_langfuse (e : OtelEnv) (host pk sk : String)
    (h1 : e.langfuse_base_url = some host) (h2 : host ≠ "")
    (h3 : e.langfuse_public_key = some pk) (h4 : pk ≠ "")
    (h5 : e.langfuse_secret_key = some sk) (h6 : sk ≠ "") :
    (setup_otel e).1.otel_exporter_otlp_endpoint =
        some (host ++ "/api/public/otel") ∧
      (setup_otel e).1.otel_exporter_otlp_headers =
        some ("Authorization=Basic " ++ b64encode (pk ++ ":" ++ sk)) := by
  have ht : pyTruthy (some host) = true := (pyTruthy_some_iff host).mpr h2
  simp [setup_otel, ht, h1, h3, h5, h4, h6]

/-- C8 witness: with host `https://cloud.langfuse.com` and keys `public`
and `secret`, the endpoint and Basic-auth header are produced, and the
base64 token of `public:secret` evaluates to `cHVibGljOnNlY3JldA==`. -/
theorem c8_setup_otel_langfuse_witness :
    ((setup_otel
          ⟨some "https://cloud.langfuse.com", some "public", some "secret",
            none, none⟩).1.otel_exporter_otlp_endpoint =
        some ("https://cloud.langfuse.com" ++ "/api/public/otel") ∧
      (setup_otel
          ⟨some "https://cloud.langfuse.com", some "public", some "secret",
            none, none⟩).1.otel_exporter_otlp_headers =
        some ("Authorization=Basic " ++ b64encode ("public" ++ ":" ++ "secret"))) ∧
      b64encode "public:secret" = "cHVibGljOnNlY3JldA==" :=
  ⟨c8_setup_otel_langfuse
      ⟨some "https://cloud.langfuse.com", some "public", some "secret",
        none, none⟩
      "https://cloud.langfuse.com" "public" "secret" rfl (by decide) rfl
      (by decide) rfl (by decide),
    by decide⟩

end AgentRunner
